import Mathlib

/-!
Verification development for the multi-intent classification and
agent-routing/planning pipeline of the wurm shopping middleware.

The Python source is shallowly embedded: dictionaries become association
lists, duck-typed JSON values become the inductive type PVal, exceptions
become Except results, and the remote collaborators (the structured
completion client and the storefront executor) become function parameters.
-/

namespace Wurm

/-- A Python/JSON value as handled by the agents: None, bool, int, str,
list, dict.  Numeric JSON values are modeled as integers; none of the
embedded transforms inspects numeric magnitudes. -/
inductive PVal where
  | pnone
  | pbool (b : Bool)
  | pint (n : Int)
  | pstr (s : String)
  | plist (xs : List PVal)
  | pdict (kvs : List (String × PVal))

/-- Python truthiness of a value. -/
def PVal.truthy : PVal → Bool
  | .pnone => false
  | .pbool b => b
  | .pint n => n != 0
  | .pstr s => s != ""
  | .plist xs => !xs.isEmpty
  | .pdict kvs => !kvs.isEmpty

/-- First-match association-list lookup; models dict indexing on a
well-formed (duplicate-free) Python dict. -/
def pyLookup : List (String × PVal) → String → Option PVal
  | [], _ => none
  | (k, v) :: rest, key => if k = key then some v else pyLookup rest key

/-- Python dict.get: absent keys collapse to None. -/
def pyGetD (d : List (String × PVal)) (k : String) : PVal :=
  (pyLookup d k).getD .pnone

/-- Python dict assignment: overwrite the first occurrence in place,
append when the key is absent. -/
def pyDictSet : List (String × PVal) → String → PVal → List (String × PVal)
  | [], key, v => [(key, v)]
  | (k, w) :: rest, key, v =>
      if k = key then (k, v) :: rest else (k, w) :: pyDictSet rest key v

/-- Decimal rendering of a natural number, as Python str(n) produces for
the step keys. -/
def natStr (n : Nat) : String :=
  if n = 0 then "0" else ((Nat.digits 10 n).reverse.map Nat.digitChar).asString

/-- The Python exception classes raised by the embedded code. -/
inductive PyErr where
  | attributeError (msg : String)
  | typeError (msg : String)
  | keyError (msg : String)
  | validationError (msg : String)
  | valueError (msg : String)
  | runtimeError (msg : String)
  | httpStatusError (status : Nat)
deriving DecidableEq

/-! ## Agent coordinator (src/handlers/gpt_handlers/gpt_agents/agent_coordinator.py)

The coordinator reads the duck-typed attributes primary_intent,
intent_sequence, message_parts and is_multi_intent off the classification
result; MultiIntentData is the record of exactly those attributes.  Agent
plans are parsed JSON objects (the structured-completion contract), so a
successful plan_and_execute call yields a string-keyed dictionary; a raised
exception is an Except.error carrying str(e). -/

/-- A plan returned by an agent: a parsed JSON object. -/
abbrev PlanDict := List (String × PVal)

/-- The accumulated context dictionary owned by the router. -/
abbrev Ctx := List (String × PVal)

/-- The classification attributes read by AgentCoordinator. -/
structure MultiIntentData where
  primary_intent : String
  intent_sequence : List String
  message_parts : List String
  is_multi_intent : Bool

/-- One entry of sequence_results, mirroring the step_result dict built in
process_intent_sequences: plan and status success on a normal return,
error message and status error when the agent call raises. -/
structure StepResultR where
  step : Nat
  intent : String
  message_part : String
  plan : Option PlanDict
  error : Option String
  status : String

/-- The behavior of specialized_agent.plan_and_execute for the step at a
given 0-based index, as a function of the seed dictionary passed in; the
intent tag and message part are passed along as the coordinator does. -/
abbrev AgentCall := Nat → String → String → Ctx → Except String PlanDict

/-- The accumulated-context key written after a successful step with a
truthy steps entry; i is the 1-based step number. -/
def stepKey (i : Nat) : String := "step_" ++ natStr i ++ "_results"

/-- The for-loop of process_intent_sequences, from loop index i with the
current context: each intent appends exactly one step result; a success
whose plan has a truthy steps value stores it under step_(i+1)_results. -/
def runSeqAux (call : AgentCall) (user_message : String) (parts : List String) :
    Nat → Ctx → List String → List StepResultR × Ctx
  | _, ctx, [] => ([], ctx)
  | i, ctx, intent :: rest =>
      let message_part := parts.getD i user_message
      match call i intent message_part ctx with
      | .ok plan =>
          let res : StepResultR :=
            ⟨i + 1, intent, message_part, some plan, none, "success"⟩
          let ctx2 :=
            match pyLookup plan "steps" with
            | some v => if v.truthy then pyDictSet ctx (stepKey (i + 1)) v else ctx
            | none => ctx
          let rec2 := runSeqAux call user_message parts (i + 1) ctx2 rest
          (res :: rec2.1, rec2.2)
      | .error e =>
          let res : StepResultR :=
            ⟨i + 1, intent, message_part, none, some e, "error"⟩
          let rec2 := runSeqAux call user_message parts (i + 1) ctx rest
          (res :: rec2.1, rec2.2)

/-- The aggregate dictionary returned by process_intent_sequences. -/
structure MultiIntentResult where
  status : String
  intent_data : MultiIntentData
  sequence_results : List StepResultR
  is_shopping_related : Bool
  total_steps : Nat

/-- AgentCoordinator.process_intent_sequences. -/
def process_intent_sequences (call : AgentCall) (intent_data : MultiIntentData)
    (user_message : String) : MultiIntentResult :=
  { status := "multi_intent_complete"
    intent_data := intent_data
    sequence_results :=
      (runSeqAux call user_message intent_data.message_parts 0 [] intent_data.intent_sequence).1
    is_shopping_related := true
    total_steps := intent_data.intent_sequence.length }

/-- The context passed as seed to the step at 0-based index i: the state of
context_data after the first i loop iterations, starting from the empty
dict. -/
def seedBefore (call : AgentCall) (user_message : String) (parts : List String)
    (intents : List String) (i : Nat) : Ctx :=
  (runSeqAux call user_message parts 0 [] (intents.take i)).2

/-! ### Non-shopping path (handle_non_shopping_intent) -/

/-- The behavior of CommunicationAgent.plan_communication: seed, customer
message and language id to a parsed JSON-object plan. -/
abbrev CommPlanner := PVal → String → Option String → PlanDict

/-- The synthetic seed dict built by handle_non_shopping_intent. -/
def mk_non_shopping_seed (intent_data : MultiIntentData) (user_message : String) : PVal :=
  .pdict
    [("intent_type", .pstr intent_data.primary_intent),
     ("context", .pdict
        [("message", .pstr user_message),
         ("is_greeting", .pbool (intent_data.primary_intent = "greeting")),
         ("is_unclear", .pbool (intent_data.primary_intent = "unclear"))]),
     ("cue", .pstr ("Generate a contextual response for " ++ intent_data.primary_intent
        ++ " intent, acknowledging the user but redirecting to shopping assistance"))]

/-- CommunicationAgent.plan_and_execute, as invoked by the coordinator with
self.header_info.languageId in the header_info parameter slot.  Inside the
agent, header_info.languageId is evaluated when header_info is truthy; a
non-empty language string therefore raises AttributeError, while None or
the empty string pass language_id None to plan_communication. -/
def communication_plan_and_execute (planComm : CommPlanner) (seed : PVal)
    (customerMessage : String) (header_info_arg : Option String) :
    Except PyErr PlanDict :=
  match header_info_arg with
  | some s =>
      if s = "" then .ok (planComm seed customerMessage none)
      else .error (.attributeError "str object has no attribute languageId")
  | none => .ok (planComm seed customerMessage none)

/-- The response_message extraction of handle_non_shopping_intent, applied
to the specialized plan returned by the communication agent. -/
def extract_response_message (specialized_plan : PlanDict) : Except PyErr PVal :=
  let dflt : PVal := .pstr "I can only help with shopping-related requests."
  match pyLookup specialized_plan "response_text" with
  | some v => .ok v
  | none =>
      match pyLookup specialized_plan "steps" with
      | some sv =>
          if sv.truthy then
            match sv with
            | .plist (s0 :: _) =>
                match s0 with
                | .pdict sd =>
                    match (pyLookup sd "parameters").getD (.pdict []) with
                    | .pdict pd => .ok ((pyLookup pd "message").getD dflt)
                    | _ => .error (.attributeError "get on a non-dict parameters value")
                | _ => .error (.attributeError "get on a non-dict step")
            | .pstr _ => .error (.attributeError "get on a one-character string")
            | .pdict _ => .error (.keyError "0")
            | _ => .error (.typeError "object is not subscriptable")
          else .ok dflt
      | none => .ok dflt

/-- The response dict of handle_non_shopping_intent. -/
structure NonShoppingResult where
  message : PVal
  plan : PlanDict
  status : String
  agent : String
  is_shopping_related : Bool
  intent_data : MultiIntentData

/-- AgentCoordinator.handle_non_shopping_intent; langId is the value of
self.header_info.languageId. -/
def handle_non_shopping_intent (planComm : CommPlanner) (langId : Option String)
    (intent_data : MultiIntentData) (user_message : String) :
    Except PyErr NonShoppingResult := do
  let seed := mk_non_shopping_seed intent_data user_message
  let specialized_plan ← communication_plan_and_execute planComm seed user_message langId
  let response_message ← extract_response_message specialized_plan
  pure
    { message := response_message
      plan := specialized_plan
      status := "non_shopping_request"
      agent := "communication"
      is_shopping_related := false
      intent_data := intent_data }

/-- The two shapes of dictionary process_chat_request can return. -/
inductive ChatOutcome where
  | nonShopping (r : NonShoppingResult)
  | multiIntent (r : MultiIntentResult)

/-- AgentCoordinator.process_chat_request after classification: the
greeting/unclear branch versus the sequence loop. -/
def process_chat_request (call : AgentCall) (planComm : CommPlanner)
    (langId : Option String) (intent_data : MultiIntentData)
    (user_message : String) : Except PyErr ChatOutcome :=
  if intent_data.primary_intent = "greeting" ∨ intent_data.primary_intent = "unclear" then
    (handle_non_shopping_intent planComm langId intent_data user_message).map .nonShopping
  else
    .ok (.multiIntent (process_intent_sequences call intent_data user_message))

/-! ### Intent-to-agent mapping (AgentCoordinator.map_intent_to_agent) -/

/-- The four specialized agents of the INTENT_TO_AGENT table. -/
inductive Agent where
  | searchAgent
  | cartAgent
  | orderAgent
  | communicationAgent
deriving DecidableEq

/-- The class-level INTENT_TO_AGENT dictionary. -/
def INTENT_TO_AGENT : List (String × Agent) :=
  [("search", .searchAgent), ("cart", .cartAgent), ("order", .orderAgent),
   ("communication", .communicationAgent)]

/-- AgentCoordinator.map_intent_to_agent: greeting and unclear are rewritten
to communication, then the table is consulted with the communication agent
as fallback. -/
def map_intent_to_agent (intent : String) : Agent :=
  let intent2 := if intent = "greeting" ∨ intent = "unclear" then "communication" else intent
  ((INTENT_TO_AGENT.lookup intent2).getD .communicationAgent)

/-! ## Search payload model (src/handlers/gpt_handlers/gpt_agents/search_agent.py)

The pydantic models SearchPayload, SearchFilter, FilterParameter,
IncludeDefinition, AssociationDefinition, SortRule and CriteriaPayload are
embedded as records whose Option fields are the str-or-None (etc.) unions.
Scalar JSON numbers are modeled as Int: the conversions copy them through
untouched.  The flat dictionary produced by model_dump(exclude_none=True)
and the include/association/filter rewrites of _payload_to_dict is
embedded structurally: an absent key is a none field. -/

/-- A scalar filter value: str, int/float or bool (float modeled as Int;
the conversions never inspect it). -/
inductive Prim where
  | s (v : String)
  | i (v : Int)
  | b (v : Bool)
deriving DecidableEq

/-- FilterParameter: key plus optional scalar value. -/
structure FilterParameter where
  key : String
  value : Option Prim
deriving DecidableEq

/-- SearchFilter, with parameters in the typed list-of-pairs form. -/
structure SearchFilter where
  type : String
  field : Option String
  value : Option Prim
  parameters : Option (List FilterParameter)
deriving DecidableEq

/-- IncludeDefinition: alias plus field list. -/
structure IncludeDefinition where
  alias_ : String
  fields : List String
deriving DecidableEq

/-- AssociationDefinition: name, include list, optional limit. -/
structure AssociationDefinition where
  name : String
  includes : List String
  limit : Option Int
deriving DecidableEq

/-- SortRule; the order string is validated against ASC/DESC/asc/desc when
built from a flat dict. -/
structure SortRule where
  field : String
  order : String
deriving DecidableEq

/-- CriteriaPayload. -/
structure CriteriaPayload where
  page : Option Int := none
  limit : Option Int := none
  filter : Option (List SearchFilter) := none
  sort : Option (List SortRule) := none
  aggregations : Option (List String) := none
deriving DecidableEq

/-- SearchPayload, the typed payload attached to a search extraction. -/
structure SearchPayload where
  productNumber : Option String := none
  search : Option String := none
  order : Option String := none
  limit : Option Int := none
  quantity : Option Int := none
  page : Option Int := none
  min_price : Option Int := none
  max_price : Option Int := none
  manufacturer : Option String := none
  properties : Option String := none
  shipping_free : Option Bool := none
  rating : Option Int := none
  filter : Option (List SearchFilter) := none
  includes : Option (List IncludeDefinition) := none
  associations : Option (List AssociationDefinition) := none
  category_id : Option String := none
  criteria : Option CriteriaPayload := none
  productId : Option String := none
  options : Option (List String) := none
  switchedGroup : Option String := none
deriving DecidableEq

/-- A filter entry in flat-dict form: parameters, when present, are the
key-to-optional-value map produced by _payload_to_dict (a dict value of
None stays representable). -/
structure FlatFilter where
  type : String
  field : Option String
  value : Option Prim
  parameters : Option (List (String × Option Prim))
deriving DecidableEq

/-- The includes entry of the flat dict: either the alias-to-fields map
form produced for a non-empty includes list, or the untouched dump list
left in place when the walrus test on an empty list is falsy (and the
list form _dict_to_payload accepts unconverted). -/
inductive FlatIncludes where
  | fmap (m : List (String × List String))
  | flist (l : List IncludeDefinition)
deriving DecidableEq

/-- The flat value of one association: the includes list is always present
in the dump; limit is present only when set. -/
structure FlatAssociation where
  includes : List String
  limit : Option Int
deriving DecidableEq

/-- The associations entry of the flat dict: map form for a non-empty
association list, raw list form otherwise. -/
inductive FlatAssociations where
  | amap (m : List (String × FlatAssociation))
  | alist (l : List AssociationDefinition)
deriving DecidableEq

/-- A sort entry in flat form: field and order are both always present in
a SortRule dump. -/
structure FlatSort where
  field : String
  order : String
deriving DecidableEq

/-- The criteria entry in flat form. -/
structure FlatCriteria where
  page : Option Int := none
  limit : Option Int := none
  filter : Option (List FlatFilter) := none
  sort : Option (List FlatSort) := none
  aggregations : Option (List String) := none
deriving DecidableEq

/-- The flat payload dictionary exchanged with the executor: the result
shape of _payload_to_dict and the input shape of _dict_to_payload. -/
structure FlatPayload where
  productNumber : Option String := none
  search : Option String := none
  order : Option String := none
  limit : Option Int := none
  quantity : Option Int := none
  page : Option Int := none
  min_price : Option Int := none
  max_price : Option Int := none
  manufacturer : Option String := none
  properties : Option String := none
  shipping_free : Option Bool := none
  rating : Option Int := none
  filter : Option (List FlatFilter) := none
  includes : Option FlatIncludes := none
  associations : Option FlatAssociations := none
  category_id : Option String := none
  criteria : Option FlatCriteria := none
  productId : Option String := none
  options : Option (List String) := none
  switchedGroup : Option String := none
deriving DecidableEq

/-- The _convert_filters rewrite of _payload_to_dict on one filter: the
parameters list becomes the key-to-value map (dict.get leaves absent
values as None). -/
def filterToFlat (f : SearchFilter) : FlatFilter :=
  { type := f.type
    field := f.field
    value := f.value
    parameters := f.parameters.map (fun ps => ps.map (fun p => (p.key, p.value))) }

/-- The _convert_filters_back rewrite of _dict_to_payload on one filter. -/
def filterFromFlat (f : FlatFilter) : SearchFilter :=
  { type := f.type
    field := f.field
    value := f.value
    parameters := f.parameters.map (fun ps => ps.map (fun kv => ⟨kv.1, kv.2⟩)) }

/-- The criteria rewrite of _payload_to_dict: nested filters converted,
sort copied. -/
def criteriaToFlat (c : CriteriaPayload) : FlatCriteria :=
  { page := c.page
    limit := c.limit
    filter := c.filter.map (fun fs => fs.map filterToFlat)
    sort := c.sort.map (fun ss => ss.map (fun s => ⟨s.field, s.order⟩))
    aggregations := c.aggregations }

/-- The optional-field validation pattern of _dict_to_payload: an absent
entry stays absent, a present entry must convert. -/
def optField {a b : Type} (convert : a → Option b) : Option a → Option (Option b)
  | none => some none
  | some v => (convert v).map some

/-- The order literals accepted by SortRule. -/
def sortOrderLiterals : List String := ["ASC", "DESC", "asc", "desc"]

/-- Pydantic validation of one flat sort entry into a SortRule. -/
def sortFromFlat (s : FlatSort) : Option SortRule :=
  if s.order ∈ sortOrderLiterals then some ⟨s.field, s.order⟩ else none

/-- The criteria direction of _dict_to_payload followed by CriteriaPayload
validation; fails when a sort order is not one of the four literals. -/
def criteriaFromFlat (c : FlatCriteria) : Option CriteriaPayload :=
  match optField (List.mapM sortFromFlat) c.sort with
  | none => none
  | some sorts =>
      some
        { page := c.page
          limit := c.limit
          filter := c.filter.map (fun fs => fs.map filterFromFlat)
          sort := sorts
          aggregations := c.aggregations }

/-- SearchAgent._payload_to_dict: dump with exclude_none, then rewrite a
non-empty includes list to the alias map, a non-empty associations list to
the name map, and filter parameter lists to maps (an empty includes,
associations or filter list is falsy and left as the raw dump list). -/
def payload_to_dict (p : SearchPayload) : FlatPayload :=
  { productNumber := p.productNumber
    search := p.search
    order := p.order
    limit := p.limit
    quantity := p.quantity
    page := p.page
    min_price := p.min_price
    max_price := p.max_price
    manufacturer := p.manufacturer
    properties := p.properties
    shipping_free := p.shipping_free
    rating := p.rating
    filter := p.filter.map (fun fs => fs.map filterToFlat)
    includes := p.includes.map (fun l =>
      if l.isEmpty then .flist l
      else .fmap (l.map (fun inc => (inc.alias_, inc.fields))))
    associations := p.associations.map (fun l =>
      if l.isEmpty then .alist l
      else .amap (l.map (fun a => (a.name, ⟨a.includes, a.limit⟩))))
    category_id := p.category_id
    criteria := p.criteria.map criteriaToFlat
    productId := p.productId
    options := p.options
    switchedGroup := p.switchedGroup }

/-- The includes direction of _dict_to_payload followed by pydantic
validation: a non-empty map converts to the IncludeDefinition list (the
fields-or-[] on a typed field list is the identity); an empty map is falsy,
stays a dict and is rejected by pydantic; a raw list passes through the
isinstance(dict) test unconverted and validates as is. -/
def includesFromFlat : FlatIncludes → Option (List IncludeDefinition)
  | .fmap [] => none
  | .fmap m => some (m.map (fun kv => ⟨kv.1, kv.2⟩))
  | .flist l => some l

/-- The associations direction of _dict_to_payload followed by validation:
a non-empty map converts entry-wise; an empty map is falsy, stays a dict
and is rejected; a raw list fails the isinstance(dict) test, so the
freshly initialized empty assoc_list replaces it. -/
def associationsFromFlat : FlatAssociations → Option (List AssociationDefinition)
  | .amap [] => none
  | .amap m => some (m.map (fun kv => ⟨kv.1, kv.2.includes, kv.2.limit⟩))
  | .alist _ => some []

/-- SearchAgent._dict_to_payload followed by the SearchPayload pydantic
validation; none models a raised ValidationError. -/
def dict_to_payload (f : FlatPayload) : Option SearchPayload :=
  match optField includesFromFlat f.includes with
  | none => none
  | some includes =>
  match optField associationsFromFlat f.associations with
  | none => none
  | some associations =>
  match optField criteriaFromFlat f.criteria with
  | none => none
  | some criteria =>
  some
    { productNumber := f.productNumber
      search := f.search
      order := f.order
      limit := f.limit
      quantity := f.quantity
      page := f.page
      min_price := f.min_price
      max_price := f.max_price
      manufacturer := f.manufacturer
      properties := f.properties
      shipping_free := f.shipping_free
      rating := f.rating
      filter := f.filter.map (fun fs => fs.map filterFromFlat)
      includes := includes
      associations := associations
      category_id := f.category_id
      criteria := criteria
      productId := f.productId
      options := f.options
      switchedGroup := f.switchedGroup }

/-- The well-formedness of the claimed shape subset: when present, the
includes entry is the alias-to-fields map and the associations entry the
name-to-value map (the raw-list leftovers of empty dumps are excluded). -/
def WellFormedFlat (f : FlatPayload) : Prop :=
  (match f.includes with
   | some (.flist (_ :: _)) => False
   | _ => True) ∧
  (match f.associations with
   | some (.alist (_ :: _)) => False
   | _ => True)

/-! ## Function schemas and BaseAgent (src/handlers/gpt_handlers/gpt_agents/base_agent.py)

The function-schema JSON files are loaded data; a loaded schema entry has
a name, a parameters.properties dict and a parameters.required list.  The
tools list is passed in as a parameter. -/

/-- One entry of a loaded agent function schema. -/
structure FuncSchema where
  name : String
  properties : List (String × PVal)
  required : List String

/-- BaseAgent.get_action_schema: first tools entry whose name matches. -/
def get_action_schema (tools : List FuncSchema) (action_name : String) : Option FuncSchema :=
  tools.find? (fun t => t.name == action_name)

/-- The loop body of BaseAgent.get_function_parameter_info over the
properties entries: the walrus condition params.get(name) and (name in
required) removes the name from the required list only when the supplied
value is truthy; put appends the value unless it is None. -/
def gfpiLoop (params : List (String × PVal)) :
    List (String × PVal) → List (String × PVal) → List String →
    List (String × PVal) × List String
  | [], payload, required_params => (payload, required_params)
  | (param_name, _) :: rest, payload, required_params =>
      let v := pyGetD params param_name
      let required2 :=
        if v.truthy ∧ param_name ∈ required_params then required_params.erase param_name
        else required_params
      let payload2 :=
        match v with
        | .pnone => payload
        | _ => payload ++ [(param_name, v)]
      gfpiLoop params rest payload2 required2

/-- BaseAgent.get_function_parameter_info. -/
def get_function_parameter_info (tools : List FuncSchema) (function_name : String)
    (params : List (String × PVal)) :
    Except PyErr (List (String × PVal) × List String) :=
  match get_action_schema tools function_name with
  | none =>
      .error (.runtimeError ("Error: Function \x27" ++ function_name ++ "\x27 not found"))
  | some function_schema =>
      .ok (gfpiLoop params function_schema.properties [] function_schema.required)

/-! ## Flat payload as a Python dict -/

/-- A scalar filter value as a Python value. -/
def primToPVal : Prim → PVal
  | .s v => .pstr v
  | .i v => .pint v
  | .b v => .pbool v

/-- An optional scalar, None when absent. -/
def optPrimToPVal : Option Prim → PVal
  | some p => primToPVal p
  | none => .pnone

/-- Emit a key only when the optional value is present (the
exclude_none dump omits None fields). -/
def optKey (k : String) : Option PVal → List (String × PVal)
  | some v => [(k, v)]
  | none => []

/-- One flat filter entry as a Python dict. -/
def flatFilterToPVal (f : FlatFilter) : PVal :=
  .pdict
    ([("type", .pstr f.type)]
      ++ optKey "field" (f.field.map .pstr)
      ++ optKey "value" (f.value.map primToPVal)
      ++ optKey "parameters"
          (f.parameters.map (fun ps => .pdict (ps.map (fun kv => (kv.1, optPrimToPVal kv.2))))))

/-- The includes entry as a Python value: alias map or raw dump list. -/
def flatIncludesToPVal : FlatIncludes → PVal
  | .fmap m => .pdict (m.map (fun kv => (kv.1, .plist (kv.2.map .pstr))))
  | .flist l => .plist (l.map (fun inc =>
      .pdict [("alias", .pstr inc.alias_), ("fields", .plist (inc.fields.map .pstr))]))

/-- The associations entry as a Python value: name map or raw dump list. -/
def flatAssociationsToPVal : FlatAssociations → PVal
  | .amap m => .pdict (m.map (fun kv =>
      (kv.1, .pdict ([("includes", .plist (kv.2.includes.map .pstr))]
        ++ optKey "limit" (kv.2.limit.map .pint)))))
  | .alist l => .plist (l.map (fun a =>
      .pdict ([("name", .pstr a.name), ("includes", .plist (a.includes.map .pstr))]
        ++ optKey "limit" (a.limit.map .pint))))

/-- One flat sort entry as a Python dict. -/
def flatSortToPVal (s : FlatSort) : PVal :=
  .pdict [("field", .pstr s.field), ("order", .pstr s.order)]

/-- The criteria entry as a Python dict. -/
def flatCriteriaToPVal (c : FlatCriteria) : PVal :=
  .pdict
    (optKey "page" (c.page.map .pint)
      ++ optKey "limit" (c.limit.map .pint)
      ++ optKey "filter" (c.filter.map (fun fs => .plist (fs.map flatFilterToPVal)))
      ++ optKey "sort" (c.sort.map (fun ss => .plist (ss.map flatSortToPVal)))
      ++ optKey "aggregations" (c.aggregations.map (fun ags => .plist (ags.map .pstr))))

/-- The flat payload as the Python dict handed to _missing_required_fields
and to the executor, in field order with absent fields omitted. -/
def FlatPayload.toDict (f : FlatPayload) : List (String × PVal) :=
  optKey "productNumber" (f.productNumber.map .pstr)
    ++ optKey "search" (f.search.map .pstr)
    ++ optKey "order" (f.order.map .pstr)
    ++ optKey "limit" (f.limit.map .pint)
    ++ optKey "quantity" (f.quantity.map .pint)
    ++ optKey "page" (f.page.map .pint)
    ++ optKey "min_price" (f.min_price.map .pint)
    ++ optKey "max_price" (f.max_price.map .pint)
    ++ optKey "manufacturer" (f.manufacturer.map .pstr)
    ++ optKey "properties" (f.properties.map .pstr)
    ++ optKey "shipping_free" (f.shipping_free.map .pbool)
    ++ optKey "rating" (f.rating.map .pint)
    ++ optKey "filter" (f.filter.map (fun fs => .plist (fs.map flatFilterToPVal)))
    ++ optKey "includes" (f.includes.map flatIncludesToPVal)
    ++ optKey "associations" (f.associations.map flatAssociationsToPVal)
    ++ optKey "category_id" (f.category_id.map .pstr)
    ++ optKey "criteria" (f.criteria.map flatCriteriaToPVal)
    ++ optKey "productId" (f.productId.map .pstr)
    ++ optKey "options" (f.options.map (fun os => .plist (os.map .pstr)))
    ++ optKey "switchedGroup" (f.switchedGroup.map .pstr)

/-! ## Missing required fields (SearchAgent._missing_required_fields) -/

/-- The emptiness test of _missing_required_fields: value in (None, empty
string, empty list). -/
def isMissingVal : PVal → Bool
  | .pnone => true
  | .pstr s => s == ""
  | .plist xs => xs.isEmpty
  | _ => false

/-- SearchAgent._missing_required_fields over the flat payload dict. -/
def missing_required_fields (tools : List FuncSchema) (action : String)
    (payload : List (String × PVal)) : List String :=
  let required_fields :=
    match get_action_schema tools action with
    | some schema => schema.required
    | none => []
  required_fields.filter (fun fld => isMissingVal (pyGetD payload fld))

/-! ## Python str() rendering, used for the revised missing list -/

mutual

/-- Python repr of a value (quote escaping inside strings elided). -/
def pyRepr : PVal → String
  | .pnone => "None"
  | .pbool true => "True"
  | .pbool false => "False"
  | .pint n => toString n
  | .pstr s => "\x27" ++ s ++ "\x27"
  | .plist xs => "[" ++ String.intercalate ", " (pyReprList xs) ++ "]"
  | .pdict kvs => "\x7b" ++ String.intercalate ", " (pyReprDict kvs) ++ "\x7d"

/-- repr of each element of a list. -/
def pyReprList : List PVal → List String
  | [] => []
  | x :: xs => pyRepr x :: pyReprList xs

/-- repr of each key-value pair of a dict. -/
def pyReprDict : List (String × PVal) → List String
  | [] => []
  | kv :: kvs => ("\x27" ++ kv.1 ++ "\x27: " ++ pyRepr kv.2) :: pyReprDict kvs

end

/-- Python str() of a value. -/
def pyStr : PVal → String
  | .pstr s => s
  | v => pyRepr v

/-! ## Missing-parameter delegation (SearchAgent._ask_for_missing_params) -/

/-- The CommunicationPlan pydantic model. -/
structure CommunicationPlanR where
  message : String
  missing : List String
  context : List (String × PVal)
  raw : PlanDict

/-- The CommunicationPlan construction at the end of
_ask_for_missing_params: the message falls back to the generic question
when falsy, and pydantic rejects a non-str message or non-dict context. -/
def mkCommunicationPlan (messageV ctxV : PVal) (missing : List String) (plan : PVal) :
    Except PyErr CommunicationPlanR :=
  let mv := if messageV.truthy then messageV else .pstr "Could you provide the missing information?"
  match mv, ctxV with
  | .pstr s, .pdict c =>
      .ok ⟨s, missing, c, match plan with | .pdict d => d | _ => []⟩
  | _, _ => .error (.validationError "CommunicationPlan")

/-- The extraction part of _ask_for_missing_params: walk into the first
plan step and pull out the message value, the context value and the
possibly revised missing list; a non-dict first step raises
AttributeError on its .get call. -/
def ask_extract (plan : PVal) (missing0 : List String) :
    Except PyErr (PVal × PVal × List String) :=
  let steps := match plan with | .pdict d => pyLookup d "steps" | _ => none
  match steps with
  | some (.plist (s0 :: _)) =>
      match s0 with
      | .pdict sd =>
          match (pyLookup sd "parameters").getD (.pdict []) with
          | .pdict pd =>
              let messageV :=
                match pyLookup pd "message" with
                | some v => if v.truthy then v else .pstr ""
                | none => .pstr ""
              let ctxV :=
                match pyLookup pd "context" with
                | some v => if v.truthy then v else .pdict []
                | none => .pdict []
              let missing1 :=
                match pyLookup pd "missing" with
                | some (.plist (m :: ms)) => (m :: ms).map pyStr
                | _ => missing0
              .ok (messageV, ctxV, missing1)
          | _ => .ok (.pstr "", .pdict [], missing0)
      | _ => .error (.attributeError "get on a non-dict step")
  | _ => .ok (.pstr "", .pdict [], missing0)

/-- SearchAgent._ask_for_missing_params applied to the plan returned by
CommunicationAgent.plan_communication: extract message, context and a
revised missing list from the first step, fall back to the generic
question when no usable message is present. -/
def ask_for_missing_params (plan : PVal) (missing0 : List String) :
    Except PyErr CommunicationPlanR :=
  match ask_extract plan missing0 with
  | .error e => .error e
  | .ok (messageV, ctxV, missing1) => mkCommunicationPlan messageV ctxV missing1 plan

/-! ## SearchAgent.plan_search and its helpers -/

/-- The IntentParameters pydantic model of handlers/multi_intent.py: note
productNumber is declared as an int there. -/
structure IntentParameters where
  search : Option String := none
  productNumber : Option Int := none

/-- The ParsedIntent hint passed into plan_search. -/
structure ParsedIntent where
  agent : String
  function : String
  parameters : IntentParameters
  missing : List String := []
  summary : Option String := none

/-- A product property hint of the extraction. -/
structure ProductProperty where
  name : String
  value : String

/-- A product query hint of the extraction. -/
structure ProductQuery where
  label : String
  brand : Option String := none
  properties : List ProductProperty := []

/-- The SearchIntentExtraction parsed from the completion. -/
structure SearchIntentExtraction where
  name : Option String := none
  description : Option String := none
  productNumber : Option String := none
  quantity : Option Int := none
  action : String
  payload : SearchPayload := {}
  product_queries : List ProductQuery := []
  intent_summary : Option String := none

/-- Truthiness of an optional string (None or empty are falsy). -/
def optStrFalsy : Option String → Bool
  | none => true
  | some s => s == ""

/-- SearchAgent._merge_with_intent_hints: for the first parsed intent whose
function matches the action, setdefault its dumped parameters into the
flat payload, backfill description and intent_summary, then round-trip the
flat dict through _dict_to_payload.  A productNumber hint is an int and
pydantic rejects it for the str-typed payload field when the setdefault
takes effect. -/
def merge_with_intent_hints (payload : SearchPayload)
    (description intent_summary : Option String) (action : String)
    (parsed_intents : List ParsedIntent) :
    Except PyErr (SearchPayload × Option String × Option String) :=
  if parsed_intents.isEmpty then .ok (payload, description, intent_summary)
  else
    let payload_data := payload_to_dict payload
    match parsed_intents.find? (fun it => it.function == action) with
    | none =>
        match dict_to_payload payload_data with
        | some p2 => .ok (p2, description, intent_summary)
        | none => .error (.validationError "SearchPayload")
    | some intent =>
        let d1 :=
          match payload_data.search, intent.parameters.search with
          | none, some s => { payload_data with search := some s }
          | _, _ => payload_data
        let pnClash := payload_data.productNumber = none ∧ intent.parameters.productNumber ≠ none
        let description2 :=
          if optStrFalsy description ∧ intent.parameters.search.isSome then
            intent.parameters.search
          else description
        let intent_summary2 :=
          if optStrFalsy intent_summary ∧
              (match intent.summary with | some s => s != "" | none => false) = true then
            intent.summary
          else intent_summary
        if pnClash then .error (.validationError "productNumber: int is not a valid str")
        else
          match dict_to_payload d1 with
          | some p2 => .ok (p2, description2, intent_summary2)
          | none => .error (.validationError "SearchPayload")

/-- SearchAgent._normalize_payload: setdefault productNumber for the
product-number action when the extraction carries a truthy one, setdefault
search from the description for the description action, setdefault a
non-None quantity, and store the re-typed payload; returns the flat dict
used for the missing-field gate together with the typed payload. -/
def normalize_payload (action : String) (productNumber : Option String)
    (description : Option String) (quantity : Option Int)
    (payload : SearchPayload) : Except PyErr (FlatPayload × SearchPayload) :=
  let payload_data := payload_to_dict payload
  let d1 :=
    if action = "search_product_by_productNumber" then
      match productNumber with
      | some pn =>
          if pn ≠ "" ∧ payload_data.productNumber = none then
            { payload_data with productNumber := some pn }
          else payload_data
      | none => payload_data
    else payload_data
  let d2 :=
    if action = "search_products_by_description" then
      let desc := description.getD ""
      if desc ≠ "" ∧ d1.search = none then { d1 with search := some desc } else d1
    else d1
  let d3 :=
    match quantity with
    | some q => if d2.quantity = none then { d2 with quantity := some q } else d2
    | none => d2
  match dict_to_payload d3 with
  | some p2 => .ok (d3, p2)
  | none => .error (.validationError "SearchPayload")

/-- The header info threaded into the executor. -/
structure HeaderInfoR where
  contextToken : Option String := none
  languageId : Option String := none
  salesChannelId : Option String := none

/-- The underlying ProductClient call for a dispatched action: a result
value or a raised exception message. -/
abbrev ExecOracle := String → FlatPayload → Except String PVal

/-- SearchAgent._execute_shopware_action: skip without header info, guard
per-action required payload entries, dispatch to the client, wrap any
exception into an error dict, and return None for unmapped actions. -/
def execute_shopware_action (execOracle : ExecOracle) (action : String)
    (payload : FlatPayload) (header_info : Option HeaderInfoR) : Option PVal :=
  match header_info with
  | none => none
  | some _ =>
      let wrap : Except String PVal → Option PVal := fun r =>
        match r with
        | .ok v => some v
        | .error e => some (.pdict [("error", .pstr e)])
      if action = "search_products_by_description" then wrap (execOracle action payload)
      else if action = "search_product_by_productNumber" then
        match payload.productNumber with
        | some pn =>
            if pn ≠ "" then
              match execOracle action payload with
              | .ok .pnone => none
              | .ok (.pdict d) => some (.pdict d)
              | .ok v => some (.pdict [("product", v)])
              | .error e => some (.pdict [("error", .pstr e)])
            else wrap (.error "productNumber is required for search_product_by_productNumber")
        | none => wrap (.error "productNumber is required for search_product_by_productNumber")
      else if action = "list_products" then wrap (execOracle action payload)
      else if action = "product_listing_by_category" then
        match payload.category_id with
        | some cid =>
            if cid ≠ "" then wrap (execOracle action payload)
            else wrap (.error "category_id is required for product_listing_by_category")
        | none => wrap (.error "category_id is required for product_listing_by_category")
      else if action = "search_suggest" then wrap (execOracle action payload)
      else if action = "get_product" then
        match payload.productId with
        | some pid =>
            if pid ≠ "" then wrap (execOracle action payload)
            else wrap (.error "productId is required for get_product")
        | none => wrap (.error "productId is required for get_product")
      else if action = "product_cross_selling" then
        match payload.productId with
        | some pid =>
            if pid ≠ "" then wrap (execOracle action payload)
            else wrap (.error "productId is required for product_cross_selling")
        | none => wrap (.error "productId is required for product_cross_selling")
      else if action = "find_variant" then
        match payload.productId, payload.options with
        | some pid, some (_ :: _) =>
            if pid ≠ "" then wrap (execOracle action payload)
            else wrap (.error "productId and options are required for find_variant")
        | _, _ => wrap (.error "productId and options are required for find_variant")
      else none

/-- The ProductSearchResponse returned by plan_search. -/
structure ProductSearchResponseR where
  name : Option String
  description : Option String
  productNumber : Option String
  quantity : Option Int
  action : String
  payload : SearchPayload
  product_queries : List ProductQuery
  intent_summary : Option String
  missing : List String
  communication : Option CommunicationPlanR
  shopware_response : Option PVal

/-- SearchAgent.plan_search after the completion call: merge intent hints,
normalize the payload, compute the missing required fields, and either
delegate to the communication agent (missing non-empty) or execute the
storefront action. -/
def plan_search (tools : List FuncSchema) (planComm : CommPlanner)
    (execOracle : ExecOracle) (extraction : SearchIntentExtraction)
    (parsed_intents : List ParsedIntent) (customer_message : String)
    (language_id : Option String) (header_info : Option HeaderInfoR) :
    Except PyErr ProductSearchResponseR :=
  match merge_with_intent_hints extraction.payload extraction.description
      extraction.intent_summary extraction.action parsed_intents with
  | .error e => .error e
  | .ok merged =>
    match normalize_payload extraction.action extraction.productNumber
        merged.2.1 extraction.quantity merged.1 with
    | .error e => .error e
    | .ok normalized =>
      let flat := normalized.1
      let missing := missing_required_fields tools extraction.action flat.toDict
      if missing.isEmpty then
        .ok
          { name := extraction.name
            description := merged.2.1
            productNumber := extraction.productNumber
            quantity := extraction.quantity
            action := extraction.action
            payload := normalized.2
            product_queries := extraction.product_queries
            intent_summary := merged.2.2
            missing := missing
            communication := none
            shopware_response := execute_shopware_action execOracle extraction.action flat header_info }
      else
        let seed : PVal := .pdict
          [("missing", .plist (missing.map .pstr)),
           ("action", .pstr extraction.action),
           ("knownPayload", .pdict flat.toDict)]
        let plan := planComm seed customer_message language_id
        match ask_for_missing_params (.pdict plan) missing with
        | .error e => .error e
        | .ok comm =>
          .ok
            { name := extraction.name
              description := merged.2.1
              productNumber := extraction.productNumber
              quantity := extraction.quantity
              action := extraction.action
              payload := normalized.2
              product_queries := extraction.product_queries
              intent_summary := merged.2.2
              missing := missing
              communication := some comm
              shopware_response := none }

/-! ## Inbound message validation (src/main.py ChatRequest.validate_customer_message)

The try block of the validator raises ValueError on each rejected shape;
the except clause of the same function catches that ValueError, logs it
and falls through, so the validator returns None instead of propagating
the rejection. -/

/-- Python str.strip over the character data: drop leading and trailing
whitespace. -/
def pyStrip (s : String) : String :=
  ⟨((s.data.dropWhile Char.isWhitespace).reverse.dropWhile Char.isWhitespace).reverse⟩

/-- The try-block body: strip, then reject empty, over-long and
letter-free long messages with the raised ValueError message. -/
def validate_customer_message_body (v : String) : Except String String :=
  let cleaned := pyStrip v
  if cleaned = "" then
    .error "Customer message cannot be empty or contain only whitespace"
  else if cleaned.length < 1 then
    .error "Customer message is too short"
  else if 2000 < cleaned.length then
    .error ("Customer message is too long (max 2000 characters, got "
      ++ toString cleaned.length ++ ")")
  else if (cleaned.data.all (fun c => !c.isAlpha)) ∧ 50 < cleaned.length then
    .error "Customer message appears to contain only special characters or numbers"
  else .ok cleaned

/-- ChatRequest.validate_customer_message as executed: the except clause
swallows the raised ValueError, so the validator returns the cleaned
message on success and None (no rejection) on every invalid input. -/
def validate_customer_message (v : String) : Option String :=
  match validate_customer_message_body v with
  | .ok s => some s
  | .error _ => none

/-- Building a ChatRequest from a string customerMessage never raises a
validation error: the field simply becomes the validator output. -/
def chat_request_customer_message (v : String) : Except String (Option String) :=
  .ok (validate_customer_message v)

/-! ## Product client (src/handlers/shopware_handlers/shopware_product_client.py)

ProductClient inherits from ShopwareBaseClient; the attributes available
on an instance are the methods of the two classes plus the instance
attributes assigned in ShopwareBaseClient.__init__.  search_products reads
self._log before sending and self._headers in its 412 retry branch;
neither name is among them. -/

/-- The attribute names defined on a ProductClient instance. -/
def productClientAttrs : List String :=
  ["search_products", "get_product", "list_products", "find_variant",
   "product_listing_by_category", "get_product_by_productNumber",
   "get_productId_by_number",
   "create_header", "load_shopware_includes", "get_action_includes",
   "merge_includes", "aclose",
   "logger", "base_url", "access_key", "default_language_id",
   "_client", "_owns_client", "includes"]

/-- Python or on optional strings: empty and None are falsy. -/
def pyOrStr (a b : Option String) : Option String :=
  match a with
  | some s => if s = "" then b else some s
  | none => b

/-- Python dict.update on string-valued headers: overwrite existing keys
in place, append new ones. -/
def headersUpdate (base extra : List (String × String)) : List (String × String) :=
  extra.foldl
    (fun acc kv =>
      if (acc.lookup kv.1).isSome then
        acc.map (fun p => if p.1 = kv.1 then (p.1, kv.2) else p)
      else acc ++ [kv])
    base

/-- ShopwareBaseClient.create_header: base headers, then language, token
and sales channel when truthy, then the extra mapping merged on top. -/
def create_header (access_key : String) (default_language_id : Option String)
    (context_token language_id sales_channel_id : Option String)
    (extra : Option (List (String × String))) : List (String × String) :=
  let headers := [("Accept", "application/json"),
                  ("Content-Type", "application/json"),
                  ("sw-access-key", access_key)]
  let lang := pyOrStr language_id default_language_id
  let headers :=
    match lang with
    | some l => if l ≠ "" then headers ++ [("sw-language-id", l)] else headers
    | none => headers
  let headers :=
    match context_token with
    | some t => if t ≠ "" then headers ++ [("sw-context-token", t)] else headers
    | none => headers
  let headers :=
    match sales_channel_id with
    | some s => if s ≠ "" then headers ++ [("sw-sales-channel-id", s)] else headers
    | none => headers
  match extra with
  | some ex => headersUpdate headers ex
  | none => headers

/-- The headers dict built inline by search_products before the request
(the context token entry is written even when the token is None). -/
def search_products_headers (access_key : String) (context_token : Option String) :
    List (String × Option String) :=
  [("Accept", some "application/json"),
   ("Content-Type", some "application/json"),
   ("sw-access-key", some access_key),
   ("sw-context-token", context_token)]

/-- ProductClient.search_products reduced to its control flow: the
self._log.info call before the request raises AttributeError because the
base client defines logger, not _log; were logging skipped, a 412 with a
truthy token would enter the retry branch whose self._headers lookup also
fails, and any other error status re-raises. -/
def search_products (context_token : Option String) (serverStatus : Nat) :
    Except PyErr Unit :=
  if "_log" ∈ productClientAttrs then
    if serverStatus < 400 then .ok ()
    else if serverStatus = 412 ∧ (match context_token with | some t => t != "" | none => false) = true then
      if "_headers" ∈ productClientAttrs then .ok ()
      else .error (.attributeError "ProductClient object has no attribute _headers")
    else .error (.httpStatusError serverStatus)
  else .error (.attributeError "ProductClient object has no attribute _log")

/-! ## Concrete example inputs used to instantiate the theorems -/

/-- A three-intent classification whose primary intent is a shopping one. -/
def exampleData : MultiIntentData :=
  ⟨"search", ["search", "cart", "order"], ["find red shoes", "add them"], true⟩

/-- A greeting classification. -/
def exampleGreeting : MultiIntentData :=
  ⟨"greeting", ["search"], ["hello there"], false⟩

/-- An agent behavior whose second step raises and whose other steps
return a plan with one step. -/
def exampleCall : AgentCall := fun i _ _ _ =>
  if i = 1 then .error "boom"
  else .ok [("steps", .plist [.pstr ("result" ++ natStr (i + 1))])]

/-- A communication planner answering with a response text. -/
def examplePlanComm : CommPlanner := fun _ _ _ =>
  [("response_text", .pstr "Hello! How can I help you shop?")]

/-- A communication planner answering with a single communication step. -/
def exampleCommPlanner : CommPlanner := fun _ _ _ =>
  [("steps", .plist
      [.pdict [("action", .pstr "communication"),
               ("parameters", .pdict [("message", .pstr "Which product number?")])]])]

/-- An executor oracle returning an empty result dict. -/
def exampleExec : ExecOracle := fun _ _ => .ok (.pdict [])

/-- A one-action schema catalog requiring a product number. -/
def exampleTools : List FuncSchema :=
  [⟨"search_product_by_productNumber", [("productNumber", .pdict [])], ["productNumber"]⟩]

/-- An extraction that picked the product-number action with an empty
payload. -/
def exampleExtraction : SearchIntentExtraction :=
  { action := "search_product_by_productNumber" }

/-- The response plan_search produces for exampleExtraction: the missing
product number routes the turn to a communication plan. -/
def exampleSearchResponse : ProductSearchResponseR :=
  { name := none
    description := none
    productNumber := none
    quantity := none
    action := "search_product_by_productNumber"
    payload := {}
    product_queries := []
    intent_summary := none
    missing := ["productNumber"]
    communication := some
      ⟨"Which product number?", ["productNumber"], [],
       [("steps", .plist
          [.pdict [("action", .pstr "communication"),
                   ("parameters", .pdict [("message", .pstr "Which product number?")])]])]⟩
    shopware_response := none }

/-- A flat payload with includes, associations, filter and criteria in the
supported map shapes. -/
def exampleFlat : FlatPayload :=
  { search := some "red shoes"
    limit := some 10
    includes := some (.fmap [("product", ["id", "name"])])
    associations := some (.amap [("media", ⟨["url"], some 5⟩)])
    filter := some
      [⟨"equals", some "active", some (.b true), none⟩,
       ⟨"range", some "price", none, some [("gte", some (.i 10)), ("lte", none)]⟩]
    criteria := some { limit := some 24, sort := some [⟨"price", "DESC"⟩] } }

/-- The typed payload exampleFlat converts into. -/
def examplePayload : SearchPayload :=
  { search := some "red shoes"
    limit := some 10
    includes := some [⟨"product", ["id", "name"]⟩]
    associations := some [⟨"media", ["url"], some 5⟩]
    filter := some
      [⟨"equals", some "active", some (.b true), none⟩,
       ⟨"range", some "price", none, some [⟨"gte", some (.i 10)⟩, ⟨"lte", none⟩]⟩]
    criteria := some { limit := some 24, sort := some [⟨"price", "DESC"⟩] } }

/-- A schema with two required parameters, used with a params dict
supplying None and 0. -/
def exampleCartTools : List FuncSchema :=
  [⟨"add_to_cart", [("items", .pdict []), ("quantity", .pdict [])], ["items", "quantity"]⟩]

/-- Supplied parameters: items is None, quantity is 0. -/
def exampleCartParams : List (String × PVal) :=
  [("items", .pnone), ("quantity", .pint 0)]

/-! ## Theorems -/

/-- Claim C5: the intent-to-agent mapping is a total function over
strings: search, cart and order map to their agents, and communication,
greeting, unclear and every other tag map to the communication agent. -/
theorem c5_map_intent_total :
    map_intent_to_agent "search" = Agent.searchAgent ∧
    map_intent_to_agent "cart" = Agent.cartAgent ∧
    map_intent_to_agent "order" = Agent.orderAgent ∧
    map_intent_to_agent "communication" = Agent.communicationAgent ∧
    map_intent_to_agent "greeting" = Agent.communicationAgent ∧
    map_intent_to_agent "unclear" = Agent.communicationAgent ∧
    ∀ intent : String, intent ≠ "search" → intent ≠ "cart" → intent ≠ "order" →
      map_intent_to_agent intent = Agent.communicationAgent := by
  refine ⟨rfl, rfl, rfl, rfl, rfl, rfl, ?_⟩
  intro intent h1 h2 h3
  unfold map_intent_to_agent
  by_cases hg : intent = "greeting" ∨ intent = "unclear"
  · rw [if_pos hg]; rfl
  · rw [if_neg hg]
    have e1 : (intent == "search") = false := beq_eq_false_iff_ne.mpr h1
    have e2 : (intent == "cart") = false := beq_eq_false_iff_ne.mpr h2
    have e3 : (intent == "order") = false := beq_eq_false_iff_ne.mpr h3
    by_cases hc : intent = "communication"
    · subst hc; rfl
    · have e4 : (intent == "communication") = false := beq_eq_false_iff_ne.mpr hc
      simp [INTENT_TO_AGENT, List.lookup, e1, e2, e3, e4]

/-- Witness for C5: an unknown tag falls back to the communication
agent. -/
theorem c5_witness : map_intent_to_agent "checkout" = Agent.communicationAgent :=
  c5_map_intent_total.2.2.2.2.2.2 "checkout" (by decide) (by decide) (by decide)

/-- A CommunicationPlan built by _ask_for_missing_params never carries an
empty message: a falsy extracted message is replaced by the generic
fallback question before construction. -/
theorem mkCommunicationPlan_message_ne_empty (messageV ctxV : PVal)
    (missing : List String) (plan : PVal) (r : CommunicationPlanR)
    (h : mkCommunicationPlan messageV ctxV missing plan = .ok r) :
    r.message ≠ "" := by
  unfold mkCommunicationPlan at h
  by_cases ht : messageV.truthy = true
  · rw [if_pos ht] at h
    rcases messageV with _ | b | n | s | xs | kvs
    · cases ctxV <;> exact Except.noConfusion h
    · cases ctxV <;> exact Except.noConfusion h
    · cases ctxV <;> exact Except.noConfusion h
    · rcases ctxV with _ | b2 | n2 | s2 | xs2 | kvs2
      · exact Except.noConfusion h
      · exact Except.noConfusion h
      · exact Except.noConfusion h
      · exact Except.noConfusion h
      · exact Except.noConfusion h
      · cases h
        simpa [PVal.truthy] using ht
    · cases ctxV <;> exact Except.noConfusion h
    · cases ctxV <;> exact Except.noConfusion h
  · rw [if_neg ht] at h
    rcases ctxV with _ | b2 | n2 | s2 | xs2 | kvs2
    · exact Except.noConfusion h
    · exact Except.noConfusion h
    · exact Except.noConfusion h
    · exact Except.noConfusion h
    · exact Except.noConfusion h
    · cases h
      intro hfalse
      exact absurd hfalse
        (show ¬("Could you provide the missing information?" = "") by decide)

/-- Claim C9: every clarification result returned by
_ask_for_missing_params carries a non-empty user-facing message. -/
theorem c9_clarification_message_nonempty (plan : PVal) (missing0 : List String)
    (r : CommunicationPlanR)
    (h : ask_for_missing_params plan missing0 = .ok r) : r.message ≠ "" := by
  unfold ask_for_missing_params at h
  cases hex : ask_extract plan missing0 with
  | error e => rw [hex] at h; exact absurd h (by simp)
  | ok triple =>
      rw [hex] at h
      exact mkCommunicationPlan_message_ne_empty triple.1 triple.2.1 triple.2.2 plan r h

/-- Witness for C9: a plan without steps yields the generic fallback
question, which is non-empty. -/
theorem c9_witness :
    (⟨"Could you provide the missing information?", ["productNumber"], [], []⟩ :
      CommunicationPlanR).message ≠ "" :=
  c9_clarification_message_nonempty (.pdict []) ["productNumber"] _ rfl

/-- The payload accumulated by the get_function_parameter_info loop is the
base payload extended with exactly the iterated property names whose
supplied values are not None. -/
theorem gfpiLoop_payload (params : List (String × PVal)) :
    ∀ (props : List (String × PVal)) (payload : List (String × PVal)) (req : List String),
    (gfpiLoop params props payload req).1 =
      payload ++ props.filterMap (fun kp =>
        match pyGetD params kp.1 with
        | .pnone => none
        | v => some (kp.1, v))
  | [], payload, req => by simp [gfpiLoop]
  | (k, pv) :: rest, payload, req => by
      have ih := gfpiLoop_payload params rest
      cases hv : pyGetD params k <;>
        simp [gfpiLoop, hv, ih, List.filterMap_cons, List.append_assoc]

/-- The required-list maintained by the loop keeps every name whose
supplied value is not truthy. -/
theorem gfpiLoop_required_keeps (params : List (String × PVal)) (p : String)
    (hp : ¬ (pyGetD params p).truthy = true) :
    ∀ (props : List (String × PVal)) (payload : List (String × PVal)) (req : List String),
    p ∈ req → p ∈ (gfpiLoop params props payload req).2
  | [], payload, req, hmem => by simpa [gfpiLoop] using hmem
  | (k, pv) :: rest, payload, req, hmem => by
      simp only [gfpiLoop]
      by_cases hcond : (pyGetD params k).truthy = true ∧ k ∈ req
      · rw [if_pos hcond]
        have hkp : k ≠ p := by
          intro hkp; subst hkp; exact hp hcond.1
        have hmem2 : p ∈ req.erase k := by
          rw [List.mem_erase_of_ne (fun h => hkp h.symm)]; exact hmem
        exact gfpiLoop_required_keeps params p hp rest _ (req.erase k) hmem2
      · rw [if_neg hcond]
        exact gfpiLoop_required_keeps params p hp rest _ req hmem

/-- Claim C10: for a schema-known function, get_function_parameter_info
returns the payload of exactly the schema-declared parameter names whose
supplied values are not None, and a required name leaves the returned
required list only when its supplied value is truthy. -/
theorem c10_parameter_info (tools : List FuncSchema) (fname : String)
    (params : List (String × PVal)) (schema : FuncSchema)
    (payload : List (String × PVal)) (req : List String)
    (hschema : get_action_schema tools fname = some schema)
    (hrun : get_function_parameter_info tools fname params = .ok (payload, req)) :
    payload = schema.properties.filterMap (fun kp =>
        match pyGetD params kp.1 with
        | .pnone => none
        | v => some (kp.1, v)) ∧
    (∀ p, p ∈ schema.required → ¬ (pyGetD params p).truthy = true → p ∈ req) ∧
    (∀ p, p ∈ schema.required → p ∉ req → (pyGetD params p).truthy = true) := by
  unfold get_function_parameter_info at hrun
  rw [hschema] at hrun
  have hpair : gfpiLoop params schema.properties [] schema.required = (payload, req) :=
    Except.ok.inj hrun
  refine ⟨?_, ?_, ?_⟩
  · have := gfpiLoop_payload params schema.properties [] schema.required
    rw [hpair] at this
    simpa using this
  · intro p hpreq hpt
    have := gfpiLoop_required_keeps params p hpt schema.properties [] schema.required hpreq
    rw [hpair] at this
    exact this
  · intro p hpreq hnot
    by_contra hnt
    exact hnot (by
      have := gfpiLoop_required_keeps params p hnt schema.properties [] schema.required hpreq
      rw [hpair] at this
      exact this)

/-- Witness for C10: with items supplied as None and quantity as 0, both
stay in the required list and the payload keeps only the non-None
quantity. -/
theorem c10_witness :
    "items" ∈ (["items", "quantity"] : List String) ∧
    "quantity" ∈ (["items", "quantity"] : List String) := by
  have h := c10_parameter_info exampleCartTools "add_to_cart" exampleCartParams
    ⟨"add_to_cart", [("items", .pdict []), ("quantity", .pdict [])], ["items", "quantity"]⟩
    [("quantity", .pint 0)] ["items", "quantity"] rfl rfl
  exact ⟨h.2.1 "items" (by decide) (by decide), h.2.1 "quantity" (by decide) (by decide)⟩

/-- Claim C6 evidence: on a greeting classification the coordinator builds
the claimed synthetic seed and, when the stored languageId is falsy,
returns the non_shopping_request response without consulting the agent
call; but a non-empty languageId string is passed into the header_info
slot of plan_and_execute, whose attribute access raises AttributeError, so
the router crashes instead of returning. -/
theorem c6_non_shopping_path :
    process_chat_request exampleCall examplePlanComm (some "en-GB") exampleGreeting "hello there" =
      .error (.attributeError "str object has no attribute languageId") ∧
    process_chat_request exampleCall examplePlanComm none exampleGreeting "hello there" =
      .ok (.nonShopping
        { message := .pstr "Hello! How can I help you shop?"
          plan := [("response_text", .pstr "Hello! How can I help you shop?")]
          status := "non_shopping_request"
          agent := "communication"
          is_shopping_related := false
          intent_data := exampleGreeting }) ∧
    mk_non_shopping_seed exampleGreeting "hello there" =
      .pdict
        [("intent_type", .pstr "greeting"),
         ("context", .pdict
            [("message", .pstr "hello there"),
             ("is_greeting", .pbool true),
             ("is_unclear", .pbool false)]),
         ("cue", .pstr "Generate a contextual response for greeting intent, acknowledging the user but redirecting to shopping assistance")] ∧
    ∀ call1 call2 : AgentCall,
      process_chat_request call1 examplePlanComm none exampleGreeting "hello there" =
      process_chat_request call2 examplePlanComm none exampleGreeting "hello there" :=
  ⟨rfl, rfl, rfl, fun _ _ => rfl⟩

/-- dropWhile is the identity on a list none of whose elements satisfy
the predicate. -/
theorem dropWhile_eq_self_of_none (p : Char → Bool) :
    ∀ l : List Char, (∀ c ∈ l, p c = false) → l.dropWhile p = l
  | [], _ => rfl
  | c :: cs, h => by
      simp [List.dropWhile_cons, h c (List.mem_cons_self c cs)]

/-- pyStrip leaves a string without whitespace characters unchanged. -/
theorem pyStrip_no_ws (s : String) (h : ∀ c ∈ s.data, Char.isWhitespace c = false) :
    pyStrip s = s := by
  unfold pyStrip
  rw [dropWhile_eq_self_of_none _ _ h,
      dropWhile_eq_self_of_none _ _ (fun c hc => h c (List.mem_reverse.mp hc)),
      List.reverse_reverse]

/-- Every character of an all-letter-a string is non-whitespace. -/
theorem replicate_a_no_ws (n : Nat) :
    ∀ c ∈ List.replicate n 'a', Char.isWhitespace c = false := by
  intro c hc
  rw [List.eq_of_mem_replicate hc]
  decide

/-- The validator body on a string of n letters a: rejected over 2000
characters, accepted otherwise. -/
theorem validate_replicate_a (n : Nat) (hn : n ≠ 0) :
    validate_customer_message_body ⟨List.replicate n 'a'⟩ =
      if 2000 < n then
        .error ("Customer message is too long (max 2000 characters, got "
          ++ toString n ++ ")")
      else .ok ⟨List.replicate n 'a'⟩ := by
  unfold validate_customer_message_body
  rw [pyStrip_no_ws _ (replicate_a_no_ws n)]
  have hdata_ne : (⟨List.replicate n 'a'⟩ : String) ≠ "" := by
    intro he
    have hd : List.replicate n 'a' = [] := congrArg String.data he
    simp at hd
    exact hn hd
  rw [if_neg hdata_ne]
  have hlen : (⟨List.replicate n 'a'⟩ : String).length = n := by
    simp [String.length]
  rw [hlen, if_neg (show ¬ n < 1 by omega)]
  by_cases h2000 : 2000 < n
  · rw [if_pos h2000, if_pos h2000]
  · rw [if_neg h2000, if_neg h2000]
    have hall : ((List.replicate n 'a').all fun c => !c.isAlpha) = false := by
      cases n with
      | zero => exact absurd rfl hn
      | succ m =>
          rw [List.replicate_succ, List.all_cons]
          have ha : (!('a'.isAlpha)) = false := by decide
          rw [ha, Bool.false_and]
    rw [if_neg (by rw [hall]; simp)]

/-- Claim C7 evidence: a 2000-character message passes the validator; the
try-block body detects a 2001-character message, an empty message and a
51-digit message, but the except clause of the validator swallows the
raised ValueError, so the validator returns None and ChatRequest
construction never rejects the request. -/
theorem c7_validator_swallows_rejection :
    validate_customer_message (String.mk (List.replicate 2000 'a')) =
      some (String.mk (List.replicate 2000 'a')) ∧
    validate_customer_message_body (String.mk (List.replicate 2001 'a')) =
      .error "Customer message is too long (max 2000 characters, got 2001)" ∧
    validate_customer_message (String.mk (List.replicate 2001 'a')) = none ∧
    chat_request_customer_message (String.mk (List.replicate 2001 'a')) = .ok none ∧
    validate_customer_message "   " = none ∧
    validate_customer_message (String.mk (List.replicate 51 '1')) = none := by
  refine ⟨?_, ?_, ?_, ?_, ?_, ?_⟩
  · unfold validate_customer_message
    rw [validate_replicate_a 2000 (by decide), if_neg (by decide)]
  · rw [validate_replicate_a 2001 (by decide), if_pos (by decide)]
    rfl
  · unfold validate_customer_message
    rw [validate_replicate_a 2001 (by decide), if_pos (by decide)]
  · unfold chat_request_customer_message validate_customer_message
    rw [validate_replicate_a 2001 (by decide), if_pos (by decide)]
  · decide
  · decide

/-- Claim C8 evidence: the 412 retry of search_products cannot run as
documented: a ProductClient instance has neither the _log attribute read
before the request nor the _headers attribute called in the retry branch,
so the call raises AttributeError; and even resolved to the create_header
of the base client, passing the original headers as extra re-adds the
sw-context-token entry, so the token would not be removed. -/
theorem c8_retry_is_broken :
    ("_log" ∉ productClientAttrs) ∧
    ("_headers" ∉ productClientAttrs) ∧
    search_products (some "tok") 412 =
      .error (.attributeError "ProductClient object has no attribute _log") ∧
    (create_header "AK" none none (some "en-GB") none
        (some [("Accept", "application/json"), ("Content-Type", "application/json"),
               ("sw-access-key", "AK"), ("sw-context-token", "tok")])).lookup
      "sw-context-token" = some "tok" := by
  refine ⟨by decide, by decide, rfl, rfl⟩

/-! ### Round-trip lemmas for the payload conversions (claim C3) -/

/-- Mapping with a function and then its pointwise left inverse is the
identity. -/
theorem map_map_id {a b : Type} (f : a → b) (g : b → a)
    (hfg : ∀ x, g (f x) = x) : ∀ l : List a, (l.map f).map g = l
  | [] => rfl
  | x :: xs => by
      simp only [List.map_cons, hfg, map_map_id f g hfg xs]

/-- Converting one filter to typed form and back is the identity. -/
theorem filterToFlat_fromFlat (f : FlatFilter) :
    filterToFlat (filterFromFlat f) = f := by
  obtain ⟨t, fl, v, ps⟩ := f
  cases ps with
  | none => rfl
  | some l =>
      show FlatFilter.mk t fl v (some (List.map (fun p => (p.key, p.value))
        (List.map (fun kv => (⟨kv.1, kv.2⟩ : FilterParameter)) l))) = ⟨t, fl, v, some l⟩
      rw [map_map_id (fun kv => (⟨kv.1, kv.2⟩ : FilterParameter))
        (fun p => (p.key, p.value)) (fun x => rfl) l]

/-- Converting a filter list to typed form and back is the identity. -/
theorem filters_rt (l : List FlatFilter) :
    (l.map filterFromFlat).map filterToFlat = l :=
  map_map_id filterFromFlat filterToFlat filterToFlat_fromFlat l

/-- The optional-filter-list version of filters_rt. -/
theorem filters_rt_opt (o : Option (List FlatFilter)) :
    (o.map (fun fs => fs.map filterFromFlat)).map (fun fs => fs.map filterToFlat) = o := by
  cases o with
  | none => rfl
  | some l => exact congrArg some (filters_rt l)

/-- Inversion of the optional-field validation pattern. -/
theorem optField_inv {a b : Type} (f : a → Option b) (o : Option a) (r : Option b)
    (h : optField f o = some r) :
    (o = none ∧ r = none) ∨ ∃ v w, o = some v ∧ f v = some w ∧ r = some w := by
  cases o with
  | none =>
      left
      exact ⟨rfl, (Option.some.inj h).symm⟩
  | some v =>
      right
      cases hf : f v with
      | none => rw [optField, hf] at h; exact absurd h (by simp)
      | some w =>
          rw [optField, hf] at h
          exact ⟨v, w, rfl, hf, (Option.some.inj h).symm⟩

/-- Transport of a pointwise inverse across the optional-field pattern. -/
theorem optField_rt {a b : Type} (f : a → Option b) (g : b → a) (o : Option a)
    (r : Option b) (h : optField f o = some r)
    (hinv : ∀ v w, o = some v → f v = some w → g w = v) : r.map g = o := by
  rcases optField_inv f o r h with ⟨ho, hr⟩ | ⟨v, w, ho, hf, hr⟩
  · rw [ho, hr]; rfl
  · rw [ho, hr]
    simp [hinv v w ho hf]

/-- A validated sort entry renders back to its flat form. -/
theorem sortFromFlat_inv (s : FlatSort) (r : SortRule) (h : sortFromFlat s = some r) :
    (⟨r.field, r.order⟩ : FlatSort) = s := by
  unfold sortFromFlat at h
  by_cases hmem : s.order ∈ sortOrderLiterals
  · rw [if_pos hmem] at h
    cases h
    rfl
  · rw [if_neg hmem] at h
    exact absurd h (by simp)

/-- A validated sort list renders back to its flat form. -/
theorem mapM_sortFromFlat_inv :
    ∀ (ss : List FlatSort) (rs : List SortRule),
    List.mapM sortFromFlat ss = some rs →
    rs.map (fun r => (⟨r.field, r.order⟩ : FlatSort)) = ss
  | [], rs, h => by
      simp only [List.mapM_nil, Option.pure_def, Option.some.injEq] at h
      rw [← h]
      rfl
  | s :: ss, rs, h => by
      rw [List.mapM_cons] at h
      cases hs : sortFromFlat s with
      | none => rw [hs] at h; exact absurd h (by simp)
      | some r =>
          rw [hs] at h
          cases hss : List.mapM sortFromFlat ss with
          | none => rw [hss] at h; exact absurd h (by simp)
          | some rest =>
              rw [hss] at h
              have h2 : r :: rest = rs := Option.some.inj h
              rw [← h2]
              simp only [List.map_cons]
              rw [sortFromFlat_inv s r hs, mapM_sortFromFlat_inv ss rest hss]

/-- A validated criteria entry renders back to its flat form. -/
theorem criteriaFromFlat_inv (c : FlatCriteria) (r : CriteriaPayload)
    (h : criteriaFromFlat c = some r) : criteriaToFlat r = c := by
  obtain ⟨pg, li, fi, so, ag⟩ := c
  unfold criteriaFromFlat at h
  split at h
  · exact absurd h (by simp)
  rename_i sorts hS
  have hr := Option.some.inj h
  rw [← hr]
  dsimp only [criteriaToFlat]
  congr 1
  · exact filters_rt_opt fi
  · exact optField_rt (List.mapM sortFromFlat)
      (fun rs => rs.map (fun sr => (⟨sr.field, sr.order⟩ : FlatSort))) so sorts hS
      (fun v w _ hf => mapM_sortFromFlat_inv v w hf)

/-- A validated includes entry of the supported map shape renders back to
its flat form. -/
theorem includesFromFlat_inv (inc : FlatIncludes) (l : List IncludeDefinition)
    (h : includesFromFlat inc = some l)
    (hwf : ∀ i rest, inc ≠ .flist (i :: rest)) :
    (if l.isEmpty then FlatIncludes.flist l
     else .fmap (l.map (fun i => (i.alias_, i.fields)))) = inc := by
  cases inc with
  | fmap m =>
      cases m with
      | nil => exact absurd h (by simp [includesFromFlat])
      | cons kv m =>
          simp only [includesFromFlat, Option.some.injEq] at h
          rw [← h]
          rw [if_neg (by simp)]
          rw [map_map_id (fun kv => (⟨kv.1, kv.2⟩ : IncludeDefinition))
            (fun i => (i.alias_, i.fields)) (fun x => rfl) (kv :: m)]
  | flist l2 =>
      cases l2 with
      | nil =>
          simp only [includesFromFlat, Option.some.injEq] at h
          rw [← h]
          rfl
      | cons a l2 => exact absurd rfl (hwf a l2)

/-- A validated associations entry of the supported map shape renders back
to its flat form. -/
theorem associationsFromFlat_inv (a : FlatAssociations) (l : List AssociationDefinition)
    (h : associationsFromFlat a = some l)
    (hwf : ∀ x rest, a ≠ .alist (x :: rest)) :
    (if l.isEmpty then FlatAssociations.alist l
     else .amap (l.map (fun x => (x.name, ⟨x.includes, x.limit⟩)))) = a := by
  cases a with
  | amap m =>
      cases m with
      | nil => exact absurd h (by simp [associationsFromFlat])
      | cons kv m =>
          simp only [associationsFromFlat, Option.some.injEq] at h
          rw [← h]
          rw [if_neg (by simp)]
          rw [map_map_id
            (fun kv => (⟨kv.1, kv.2.includes, kv.2.limit⟩ : AssociationDefinition))
            (fun x => (x.name, (⟨x.includes, x.limit⟩ : FlatAssociation)))
            (fun x => rfl) (kv :: m)]
  | alist l2 =>
      cases l2 with
      | nil =>
          simp only [associationsFromFlat, Option.some.injEq] at h
          rw [← h]
          rfl
      | cons x l2 => exact absurd rfl (hwf x l2)

/-- Claim C3: on well-formed flat payloads (includes and associations in
their map shapes), converting to the typed payload and back to the flat
dict is the identity. -/
theorem c3_round_trip (x : FlatPayload) (p : SearchPayload)
    (h : dict_to_payload x = some p) (hwf : WellFormedFlat x) :
    payload_to_dict p = x := by
  obtain ⟨pn, se, orr, li, qu, pa, mnp, mxp, man, pr, sf, ra, fi, inc, asc, cid, cr, pid, op, sg⟩ := x
  obtain ⟨hwf1, hwf2⟩ := hwf
  unfold dict_to_payload at h
  split at h
  · exact absurd h (by simp)
  rename_i incs hI
  split at h
  · exact absurd h (by simp)
  rename_i ascs hA
  split at h
  · exact absurd h (by simp)
  rename_i crs hC
  have hp := Option.some.inj h
  rw [← hp]
  dsimp only [payload_to_dict]
  congr 1
  · exact filters_rt_opt fi
  · exact optField_rt includesFromFlat
      (fun l => if l.isEmpty then FlatIncludes.flist l
        else .fmap (l.map (fun i => (i.alias_, i.fields)))) inc incs hI
      (fun v w hv hf => includesFromFlat_inv v w hf (by
        intro i rest hvv
        rw [hvv] at hv
        rw [hv] at hwf1
        simp at hwf1))
  · exact optField_rt associationsFromFlat
      (fun l => if l.isEmpty then FlatAssociations.alist l
        else .amap (l.map (fun x => (x.name, ⟨x.includes, x.limit⟩)))) asc ascs hA
      (fun v w hv hf => associationsFromFlat_inv v w hf (by
        intro i rest hvv
        rw [hvv] at hv
        rw [hv] at hwf2
        simp at hwf2))
  · exact optField_rt criteriaFromFlat criteriaToFlat cr crs hC
      (fun v w _ hf => criteriaFromFlat_inv v w hf)

/-- Witness for C3: a concrete payload with includes, associations, filter
parameters and criteria round-trips. -/
theorem c3_witness : payload_to_dict examplePayload = exampleFlat :=
  c3_round_trip exampleFlat examplePayload rfl ⟨trivial, trivial⟩

/-- Claim C2: whenever plan_search returns with a non-empty missing list,
the response carries a communication plan, carries no storefront response,
and the run is independent of the executor oracle: the action executor
was never invoked. -/
theorem c2_missing_field_gate (tools : List FuncSchema) (planComm : CommPlanner)
    (execOracle : ExecOracle) (extraction : SearchIntentExtraction)
    (parsed_intents : List ParsedIntent) (customer_message : String)
    (language_id : Option String) (header_info : Option HeaderInfoR)
    (r : ProductSearchResponseR)
    (h : plan_search tools planComm execOracle extraction parsed_intents
      customer_message language_id header_info = .ok r)
    (hm : r.missing ≠ []) :
    r.communication.isSome = true ∧ r.shopware_response = none ∧
    ∀ execOracle2 : ExecOracle,
      plan_search tools planComm execOracle2 extraction parsed_intents
        customer_message language_id header_info = .ok r := by
  simp only [plan_search] at h
  split at h
  · exact absurd h (by simp)
  rename_i merged hmerge
  split at h
  · exact absurd h (by simp)
  rename_i normalized hnorm
  split at h
  · rename_i hEmpty
    have hr := Except.ok.inj h
    rw [← hr] at hm
    exact absurd (List.isEmpty_iff.mp hEmpty) hm
  · rename_i hne
    split at h
    · exact absurd h (by simp)
    rename_i comm hask
    have hr := Except.ok.inj h
    refine ⟨?_, ?_, ?_⟩
    · rw [← hr]; rfl
    · rw [← hr]
    · intro execOracle2
      have heq : plan_search tools planComm execOracle2 extraction parsed_intents
          customer_message language_id header_info =
          plan_search tools planComm execOracle extraction parsed_intents
          customer_message language_id header_info := by
        simp only [plan_search, hmerge, hnorm, hne, Bool.false_eq_true, if_false]
      rw [heq]
      simp only [plan_search, hmerge, hnorm, hne, Bool.false_eq_true, if_false, hask]
      exact h

/-- Witness for C2: an extraction for the product-number action with an
empty payload is missing productNumber, so the response carries the
communication plan and no storefront response. -/
theorem c2_witness :
    exampleSearchResponse.communication.isSome = true ∧
    exampleSearchResponse.shopware_response = none := by
  have h := c2_missing_field_gate exampleTools exampleCommPlanner exampleExec
    exampleExtraction [] "find it" none none exampleSearchResponse rfl (by
      simp [exampleSearchResponse])
  exact ⟨h.1, h.2.1⟩

/-! ### Step-key freshness and run decomposition (claims C1 and C4) -/

/-- digitChar is injective below ten. -/
theorem digitChar_inj10 : ∀ a, a < 10 → ∀ b, b < 10 →
    Nat.digitChar a = Nat.digitChar b → a = b := by decide

/-- Mapping digitChar over bounded digit lists is injective. -/
theorem map_digitChar_inj : ∀ (l1 l2 : List Nat), (∀ x ∈ l1, x < 10) → (∀ x ∈ l2, x < 10) →
    l1.map Nat.digitChar = l2.map Nat.digitChar → l1 = l2
  | [], [], _, _, _ => rfl
  | [], _ :: _, _, _, h => by simp at h
  | _ :: _, [], _, _, h => by simp at h
  | a :: l1, b :: l2, h1, h2, h => by
      simp only [List.map_cons, List.cons.injEq] at h
      rw [digitChar_inj10 a (h1 a (List.mem_cons_self a l1)) b
          (h2 b (List.mem_cons_self b l2)) h.1,
        map_digitChar_inj l1 l2 (fun x hx => h1 x (List.mem_cons_of_mem _ hx))
          (fun x hx => h2 x (List.mem_cons_of_mem _ hx)) h.2]

/-- The digit rendering of a positive number is never the string 0. -/
theorem natStr_pos_ne_zero (b : Nat) (hb : b ≠ 0)
    (h : "0" = ((Nat.digits 10 b).reverse.map Nat.digitChar).asString) : False := by
  have h0 : "0" = (['0'] : List Char).asString := rfl
  rw [h0] at h
  have h2 := List.asString_inj.mp h
  rcases hd : (Nat.digits 10 b).reverse with _ | ⟨d, rest⟩
  · rw [hd] at h2
    simp at h2
  · rw [hd] at h2
    simp only [List.map_cons, List.cons.injEq] at h2
    have hdmem : d ∈ Nat.digits 10 b := by
      rw [← List.mem_reverse, hd]
      exact List.mem_cons_self d rest
    have hd10 : d < 10 := Nat.digits_lt_base (by norm_num) hdmem
    have hd0 : d = 0 := digitChar_inj10 d hd10 0 (by norm_num) h2.1.symm
    have hrest : rest = [] := by
      cases rest with
      | nil => rfl
      | cons c cs => exact absurd h2.2 (by simp)
    have hdig : Nat.digits 10 b = [0] := by
      have hrev : (Nat.digits 10 b).reverse = [0] := by rw [hd, hd0, hrest]
      rw [← List.reverse_reverse (Nat.digits 10 b), hrev]
      rfl
    have hb0 : b = 0 := by
      have hof := Nat.ofDigits_digits 10 b
      rw [hdig] at hof
      simpa [Nat.ofDigits] using hof.symm
    exact hb hb0

/-- The decimal rendering natStr is injective. -/
theorem natStr_inj (a b : Nat) (h : natStr a = natStr b) : a = b := by
  unfold natStr at h
  by_cases ha : a = 0 <;> by_cases hb : b = 0
  · rw [ha, hb]
  · rw [if_pos ha, if_neg hb] at h
    exact (natStr_pos_ne_zero b hb h).elim
  · rw [if_neg ha, if_pos hb] at h
    exact (natStr_pos_ne_zero a ha h.symm).elim
  · rw [if_neg ha, if_neg hb] at h
    have h2 := List.asString_inj.mp h
    have h3 := map_digitChar_inj _ _
      (fun x hx => Nat.digits_lt_base (by norm_num) (List.mem_reverse.mp hx))
      (fun x hx => Nat.digits_lt_base (by norm_num) (List.mem_reverse.mp hx)) h2
    have h4 := List.reverse_injective h3
    calc a = Nat.ofDigits 10 (Nat.digits 10 a) := (Nat.ofDigits_digits 10 a).symm
      _ = Nat.ofDigits 10 (Nat.digits 10 b) := by rw [h4]
      _ = b := Nat.ofDigits_digits 10 b

/-- Distinct step numbers get distinct context keys. -/
theorem stepKey_inj (a b : Nat) (h : stepKey a = stepKey b) : a = b := by
  unfold stepKey at h
  have hd := congrArg String.data h
  simp only [String.data_append] at hd
  exact natStr_inj a b (String.ext (List.append_cancel_left (List.append_cancel_right hd)))

/-- Lookup across an append searches the left dict first. -/
theorem pyLookup_append (l1 l2 : List (String × PVal)) (k : String) :
    pyLookup (l1 ++ l2) k =
      match pyLookup l1 k with
      | some v => some v
      | none => pyLookup l2 k := by
  induction l1 with
  | nil => rfl
  | cons kv rest ih =>
      obtain ⟨k1, v1⟩ := kv
      by_cases hk : k1 = k
      · simp [pyLookup, hk]
      · simp [pyLookup, hk, ih]

/-- Assigning a fresh key appends the entry. -/
theorem pyDictSet_fresh (ctx : List (String × PVal)) (k : String) (v : PVal)
    (h : pyLookup ctx k = none) : pyDictSet ctx k v = ctx ++ [(k, v)] := by
  induction ctx with
  | nil => rfl
  | cons kv rest ih =>
      obtain ⟨k1, v1⟩ := kv
      rw [pyLookup] at h
      by_cases hk : k1 = k
      · rw [if_pos hk] at h
        exact absurd h (by simp)
      · rw [if_neg hk] at h
        rw [pyDictSet, if_neg hk, ih h]
        rfl

/-- The loop produces exactly one step result per intent. -/
theorem runSeqAux_length (call : AgentCall) (um : String) (parts : List String) :
    ∀ (l : List String) (i : Nat) (ctx : Ctx),
    (runSeqAux call um parts i ctx l).1.length = l.length
  | [], _, _ => rfl
  | intent :: rest, i, ctx => by
      cases hc : call i intent (parts.getD i um) ctx with
      | ok plan =>
          simp only [runSeqAux]
          rw [hc]
          simp [runSeqAux_length call um parts rest (i + 1)]
      | error e =>
          simp only [runSeqAux]
          rw [hc]
          simp [runSeqAux_length call um parts rest (i + 1)]

/-- The loop over an appended intent list decomposes into the two runs. -/
theorem runSeqAux_append (call : AgentCall) (um : String) (parts : List String) :
    ∀ (l1 l2 : List String) (i : Nat) (ctx : Ctx),
    runSeqAux call um parts i ctx (l1 ++ l2) =
      ((runSeqAux call um parts i ctx l1).1 ++
        (runSeqAux call um parts (i + l1.length) (runSeqAux call um parts i ctx l1).2 l2).1,
       (runSeqAux call um parts (i + l1.length) (runSeqAux call um parts i ctx l1).2 l2).2)
  | [], l2, i, ctx => by simp [runSeqAux]
  | intent :: rest, l2, i, ctx => by
      rw [List.cons_append]
      cases hc : call i intent (parts.getD i um) ctx with
      | ok plan =>
          simp only [runSeqAux]
          rw [hc]
          simp [List.length_cons, Nat.add_right_comm, Nat.add_assoc,
            runSeqAux_append call um parts rest l2 (i + 1)]
      | error e =>
          simp only [runSeqAux]
          rw [hc]
          simp [List.length_cons, Nat.add_right_comm, Nat.add_assoc,
            runSeqAux_append call um parts rest l2 (i + 1)]

/-- The context after the loop extends the starting context with exactly
one entry per successful step whose plan carries a truthy steps value,
keyed by the 1-based step number, provided the starting context holds no
key of a current or later step. -/
theorem runSeqAux_ctx (call : AgentCall) (um : String) (parts : List String) :
    ∀ (l : List String) (i : Nat) (ctx : Ctx),
    (∀ j, i ≤ j → pyLookup ctx (stepKey (j + 1)) = none) →
    (runSeqAux call um parts i ctx l).2 =
      ctx ++ (List.range l.length).filterMap (fun k =>
        ((runSeqAux call um parts i ctx l).1.get? k).bind (fun res =>
          res.plan.bind (fun p =>
            (pyLookup p "steps").bind (fun v =>
              if v.truthy then some (stepKey (i + k + 1), v) else none))))
  | [], i, ctx, hfresh => by simp [runSeqAux]
  | intent :: rest, i, ctx, hfresh => by
      cases hc : call i intent (parts.getD i um) ctx with
      | error e =>
          simp only [runSeqAux]
          rw [hc]
          dsimp only
          rw [runSeqAux_ctx call um parts rest (i + 1) ctx
            (fun j hj => hfresh j (Nat.le_of_succ_le hj))]
          congr 1
          rw [List.length_cons, List.range_succ_eq_map, List.filterMap_cons]
          simp only [List.get?_cons_zero, Option.some_bind, Option.none_bind]
          rw [List.filterMap_map]
          apply List.filterMap_congr
          intro k hk
          simp only [Function.comp_apply, Nat.succ_eq_add_one, List.get?_cons_succ]
          simp only [show i + (k + 1) + 1 = i + 1 + k + 1 from by omega]
      | ok plan =>
          simp only [runSeqAux]
          rw [hc]
          dsimp only
          rcases hsteps : pyLookup plan "steps" with _ | v
          · dsimp only
            rw [runSeqAux_ctx call um parts rest (i + 1) ctx
              (fun j hj => hfresh j (Nat.le_of_succ_le hj))]
            congr 1
            rw [List.length_cons, List.range_succ_eq_map, List.filterMap_cons]
            simp only [List.get?_cons_zero, Option.some_bind, hsteps, Option.none_bind]
            rw [List.filterMap_map]
            apply List.filterMap_congr
            intro k hk
            simp only [Function.comp_apply, Nat.succ_eq_add_one, List.get?_cons_succ]
            simp only [show i + (k + 1) + 1 = i + 1 + k + 1 from by omega]
          · dsimp only
            by_cases ht : v.truthy = true
            · rw [if_pos ht]
              rw [pyDictSet_fresh ctx (stepKey (i + 1)) v (hfresh i (Nat.le_refl i))]
              have hfresh2 : ∀ j, i + 1 ≤ j →
                  pyLookup (ctx ++ [(stepKey (i + 1), v)]) (stepKey (j + 1)) = none := by
                intro j hj
                rw [pyLookup_append, hfresh j (Nat.le_of_succ_le hj)]
                simp only [pyLookup]
                rw [if_neg (fun heq => by
                  have := stepKey_inj _ _ heq
                  omega)]
              rw [runSeqAux_ctx call um parts rest (i + 1) _ hfresh2]
              rw [List.append_assoc, List.singleton_append]
              congr 1
              rw [List.length_cons, List.range_succ_eq_map, List.filterMap_cons]
              simp only [List.get?_cons_zero, Option.some_bind, hsteps, if_pos ht]
              rw [List.filterMap_map]
              simp only [Nat.add_zero]
              congr 1
              apply List.filterMap_congr
              intro k hk
              simp only [Function.comp_apply, Nat.succ_eq_add_one, List.get?_cons_succ]
              simp only [show i + (k + 1) + 1 = i + 1 + k + 1 from by omega]
            · rw [if_neg ht]
              rw [runSeqAux_ctx call um parts rest (i + 1) ctx
                (fun j hj => hfresh j (Nat.le_of_succ_le hj))]
              congr 1
              rw [List.length_cons, List.range_succ_eq_map, List.filterMap_cons]
              simp only [List.get?_cons_zero, Option.some_bind, hsteps, if_neg ht]
              rw [List.filterMap_map]
              apply List.filterMap_congr
              intro k hk
              simp only [Function.comp_apply, Nat.succ_eq_add_one, List.get?_cons_succ]
              simp only [show i + (k + 1) + 1 = i + 1 + k + 1 from by omega]

/-- Claim C4: the seed passed to the step at 0-based index i (equally, the
final context for i = number of steps) holds exactly the entries
step_(k+1)_results for the earlier steps k that succeeded with a truthy
steps value, each mapped to that plans steps value. -/
theorem c4_accumulated_context (call : AgentCall) (intent_data : MultiIntentData)
    (um : String) (i : Nat) (hi : i ≤ intent_data.intent_sequence.length) :
    seedBefore call um intent_data.message_parts intent_data.intent_sequence i =
      (List.range i).filterMap (fun k =>
        ((process_intent_sequences call intent_data um).sequence_results.get? k).bind
          (fun res => res.plan.bind (fun p =>
            (pyLookup p "steps").bind (fun v =>
              if v.truthy then some (stepKey (k + 1), v) else none)))) := by
  set parts := intent_data.message_parts with hparts
  set intents := intent_data.intent_sequence with hintents
  unfold seedBefore process_intent_sequences
  dsimp only
  rw [runSeqAux_ctx call um parts (intents.take i) 0 [] (fun j hj => rfl)]
  rw [List.nil_append, List.length_take, Nat.min_eq_left hi]
  apply List.filterMap_congr
  intro k hk
  have hk2 : k < i := List.mem_range.mp hk
  have hsplit := runSeqAux_append call um parts (intents.take i) (intents.drop i) 0 []
  rw [List.take_append_drop] at hsplit
  have hres := congrArg Prod.fst hsplit
  dsimp only at hres
  rw [hres]
  have hlen : (runSeqAux call um parts 0 [] (intents.take i)).1.length = i := by
    rw [runSeqAux_length, List.length_take]
    exact Nat.min_eq_left hi
  rw [List.get?_append (by rw [hlen]; exact hk2)]
  simp only [Nat.zero_add]

/-- Witness for C4: the seed before step 3 of the example run. -/
theorem c4_witness :
    seedBefore exampleCall "msg" exampleData.message_parts exampleData.intent_sequence 3 =
      (List.range 3).filterMap (fun k =>
        ((process_intent_sequences exampleCall exampleData "msg").sequence_results.get? k).bind
          (fun res => res.plan.bind (fun p =>
            (pyLookup p "steps").bind (fun v =>
              if v.truthy then some (stepKey (k + 1), v) else none)))) :=
  c4_accumulated_context exampleCall exampleData "msg" 3 (by decide)

/-- Claim C1: outside the greeting/unclear branch the router runs the
sequence loop, which appends exactly one step result per declared intent
in order, marking it success when the agent call returns and error when
it raises, never aborting, with total_steps the intent count. -/
theorem c1_one_result_per_intent (call : AgentCall) (planComm : CommPlanner)
    (langId : Option String) (intent_data : MultiIntentData) (um : String)
    (h : ¬(intent_data.primary_intent = "greeting" ∨ intent_data.primary_intent = "unclear")) :
    process_chat_request call planComm langId intent_data um =
      .ok (.multiIntent (process_intent_sequences call intent_data um)) ∧
    (process_intent_sequences call intent_data um).sequence_results.length =
      intent_data.intent_sequence.length ∧
    (process_intent_sequences call intent_data um).total_steps =
      intent_data.intent_sequence.length ∧
    (process_intent_sequences call intent_data um).status = "multi_intent_complete" ∧
    ∀ k, k < intent_data.intent_sequence.length →
      ∃ res : StepResultR,
        (process_intent_sequences call intent_data um).sequence_results.get? k = some res ∧
        res.step = k + 1 ∧
        res.intent = intent_data.intent_sequence.getD k "" ∧
        res.message_part = intent_data.message_parts.getD k um ∧
        res.status = (match call k (intent_data.intent_sequence.getD k "")
            (intent_data.message_parts.getD k um)
            (seedBefore call um intent_data.message_parts intent_data.intent_sequence k) with
          | .ok _ => "success"
          | .error _ => "error") := by
  refine ⟨?_, ?_, rfl, rfl, ?_⟩
  · unfold process_chat_request
    rw [if_neg h]
  · unfold process_intent_sequences
    dsimp only
    rw [runSeqAux_length]
  · intro k hk
    set parts := intent_data.message_parts with hparts
    set intents := intent_data.intent_sequence with hintents
    have hsplit := runSeqAux_append call um parts (intents.take k) (intents.drop k) 0 []
    rw [List.take_append_drop] at hsplit
    have hlen : (runSeqAux call um parts 0 [] (intents.take k)).1.length = k := by
      rw [runSeqAux_length, List.length_take]
      exact Nat.min_eq_left (Nat.le_of_lt hk)
    have hdrop : intents.drop k = intents.getD k "" :: intents.drop (k + 1) := by
      rw [List.drop_eq_getElem_cons hk]
      congr 1
      exact (List.getD_eq_getElem intents "" hk).symm
    have hidx : 0 + (intents.take k).length = k := by
      rw [List.length_take]
      have := Nat.min_eq_left (Nat.le_of_lt hk)
      omega
    unfold process_intent_sequences
    dsimp only
    have hres := congrArg Prod.fst hsplit
    dsimp only at hres
    rw [hres]
    rw [List.get?_append_right (by rw [hlen])]
    rw [hlen, Nat.sub_self]
    rw [hidx, hdrop]
    show ∃ res, (runSeqAux call um parts k
        (runSeqAux call um parts 0 [] (intents.take k)).2
        (intents.getD k "" :: intents.drop (k + 1))).1.get? 0 = some res ∧ _
    cases hc : call k (intents.getD k "") (parts.getD k um)
        (runSeqAux call um parts 0 [] (intents.take k)).2 with
    | ok plan =>
        simp only [runSeqAux]
        rw [hc]
        refine ⟨_, rfl, rfl, rfl, rfl, ?_⟩
        rw [show seedBefore call um parts intents k =
          (runSeqAux call um parts 0 [] (intents.take k)).2 from rfl, hc]
    | error e =>
        simp only [runSeqAux]
        rw [hc]
        refine ⟨_, rfl, rfl, rfl, rfl, ?_⟩
        rw [show seedBefore call um parts intents k =
          (runSeqAux call um parts 0 [] (intents.take k)).2 from rfl, hc]

/-- Witness for C1: the example three-intent run yields three results. -/
theorem c1_witness :
    (process_intent_sequences exampleCall exampleData "find red shoes").sequence_results.length = 3 :=
  (c1_one_result_per_intent exampleCall examplePlanComm none exampleData "find red shoes"
    (by decide)).2.1.trans rfl

end Wurm
